import Mathlib

/-!
Shallow embedding of the Expo push-notification client
(push_client.go, package expo) and verification of its specification.

The HTTP transport and the JSON codec are external collaborators; they are
modelled by an explicit outcome value handed to the functions under study:
the outcome of the POST call (transport failure, or a response with a status
code, a status text and a body whose decode result is given), exactly the
information the Go code branches on.  Side effects the code performs
(issuing the request, closing the response body, attempting the decode) are
recorded in an explicit trace.
-/

namespace Expo

/-- Modelled from the spec: the OutboundMessage type (PushMessage), defined in a
repository file outside src.  A list of recipient tokens in field To; the
remaining payload fields (title, body, data, sound, priority, ...) are opaque
to the client core and collapsed into one opaque string. -/
structure PushMessage where
  To : List String
  payload : String := ""
deriving Repr, DecidableEq, Inhabited

abbrev Msg := PushMessage

/-- Modelled from the spec: the ItemResult type (PushResponse), defined in a
repository file outside src.  Status discriminant, optional receipt
identifier, optional error message, and the back-reference field PushMessage
that publishInternal fills in (zero value until then). -/
structure PushResponse where
  PushMessage : Msg := default
  Status : String := ""
  ID : String := ""
  Message : String := ""
deriving Repr, DecidableEq, Inhabited

/-- Modelled from the spec: one batch-level error detail of the envelope
(code plus human message). -/
structure ResponseError where
  Code : String := ""
  Message : String := ""
deriving Repr, DecidableEq, Inhabited

/-- Modelled from the spec: the decoded top-level envelope (the Response type,
defined in a repository file outside src), with optional errors and data
fields.  A Go slice field decodes to nil when the JSON field is absent and to
a non-nil (possibly empty) slice when the field is present; none models the
nil slice, some l a present list l. -/
structure Response where
  Errors : Option (List ResponseError) := none
  Data : Option (List PushResponse) := none
deriving Repr, DecidableEq, Inhabited

/-- Outcome of decoding the response body: the body is not valid JSON for the
envelope shape (the decoder's error is carried), or it decodes into an
envelope. -/
inductive DecodeOutcome where
  | malformed (err : String)
  | envelope (r : Response)
deriving Repr, DecidableEq

/-- The received HTTP response, as far as the client code observes it: status
code, status text, and the body (represented by its decode outcome). -/
structure HTTPResponse where
  statusCode : Nat
  status : String
  body : DecodeOutcome
deriving Repr, DecidableEq

/-- Outcome of the POST call on the transport: a transport-level failure
(the error is carried), or a received response. -/
inductive SendOutcome where
  | fail (err : String)
  | ok (resp : HTTPResponse)
deriving Repr, DecidableEq

/-- Errors returned by publishInternal.  goError models a plain Go error value
(errors.New, fmt.Errorf, or a propagated transport or decode error), carrying
its message string; serverError models the PushServerError type, which is
defined in a repository file outside src and modelled from the spec: it
carries the message, the raw response, the decoded envelope and the
batch-level errors. -/
inductive PubError where
  | goError (msg : String)
  | serverError (message : String) (raw : HTTPResponse) (envelope : Response)
      (errs : Option (List ResponseError))
deriving Repr, DecidableEq

/-- Modelled from the spec: the NewPushServerError constructor, defined in a
repository file outside src; it packages its arguments into a
PushServerError. -/
def NewPushServerError (message : String) (resp : HTTPResponse) (r : Response)
    (errs : Option (List ResponseError)) : PubError :=
  .serverError message resp r errs

/-- DefaultHost is the default Expo host. -/
def DefaultHost : String := "https://exp.host"

/-- DefaultBaseAPIURL is the default path for API requests. -/
def DefaultBaseAPIURL : String := "/--/api/v2"

/-- Model of a built fastshot HTTP client (fastshot.ClientHttpMethods), as far
as its construction is observable: base host and the headers set on it. -/
structure HTTPClientSpec where
  host : String
  contentType : String
  accept : String
  authorization : Option String
deriving Repr, DecidableEq

/-- DefaultHTTPClient from push_client.go: builds a client for the host with
JSON content-type and accept headers, and a bearer Authorization header only
when the access token is non-empty. -/
def DefaultHTTPClient (host accessToken : String) : HTTPClientSpec :=
  { host := host
    contentType := "application/json"
    accept := "application/json"
    authorization :=
      if accessToken ≠ "" then some ("Bearer " ++ accessToken) else none }

/-- PushClient from push_client.go.  The httpClient field is a Go interface
value: none models the nil interface (the zero value of the local variable
when it is never assigned). -/
structure PushClient where
  host : String
  apiURL : String
  accessToken : String
  httpClient : Option HTTPClientSpec
deriving Repr, DecidableEq

/-- ClientConfig from push_client.go; the HTTPClient field is nil (none) or an
injected client. -/
structure ClientConfig where
  Host : String := ""
  APIURL : String := ""
  AccessToken : String := ""
  HTTPClient : Option HTTPClientSpec := none
deriving Repr, DecidableEq

/-- NewPushClient from push_client.go.  The Go function declares local
variables host, apiURL, accessToken with default values and a nil httpClient,
and assigns them only inside the "config != nil" block; with a nil config no
branch of that block runs, so httpClient is still the nil interface when it is
stored in the client. -/
def NewPushClient (config : Option ClientConfig) : PushClient :=
  match config with
  | none =>
      { host := DefaultHost
        apiURL := DefaultBaseAPIURL
        accessToken := ""
        httpClient := none }
  | some config =>
      let host := if config.Host ≠ "" then config.Host else DefaultHost
      let apiURL := if config.APIURL ≠ "" then config.APIURL else DefaultBaseAPIURL
      let accessToken := if config.AccessToken ≠ "" then config.AccessToken else ""
      let httpClient :=
        match config.HTTPClient with
        | some injected => some injected
        | none => some (DefaultHTTPClient host accessToken)
      { host := host
        apiURL := apiURL
        accessToken := accessToken
        httpClient := httpClient }

/-- Inner loop of the validation step of publishInternal: scan the recipients
of one message in order and fail on the first empty token. -/
def validateRecipients : List String → Option String
  | [] => none
  | recipient :: rest =>
      if recipient = "" then some "invalid push token"
      else validateRecipients rest

/-- Validation step of publishInternal: scan the messages in input order; a
message with no recipients fails with "no recipients", a message with an
empty recipient token fails with "invalid push token"; the first offending
message aborts the scan. -/
def validateMessages : List Msg → Option String
  | [] => none
  | message :: rest =>
      if message.To.length = 0 then some "no recipients"
      else
        match validateRecipients message.To with
        | some e => some e
        | none => validateMessages rest

/-- checkStatus from push_client.go: nil for a status code in 200..299,
otherwise an error formatted as in fmt.Errorf with the code and status
text. -/
def checkStatus (resp : HTTPResponse) : Option String :=
  if resp.statusCode ≥ 200 ∧ resp.statusCode ≤ 299 then none
  else
    some ("invalid response (" ++ toString resp.statusCode ++ " "
      ++ resp.status ++ ")")

/-- The mismatch error message of publishInternal, built exactly as the
fmt.Sprintf of the source does. -/
def mismatchMessage (expected received : Nat) : String :=
  "Mismatched response length. Expected " ++ toString expected
    ++ " receipts but only received " ++ toString received

/-- The pairing loop of publishInternal: for each index i of the data list,
set the PushMessage field of result i to input message i.  The loop runs over
the data indices; it is applied only after the length check, where both lists
have equal length. -/
def pairWithMessages (data : List PushResponse) (messages : List Msg) :
    List PushResponse :=
  List.zipWith (fun d m => { d with PushMessage := m }) data messages

/-- Observable side effects of one publishInternal call: whether the POST was
issued on the transport, whether the response body was closed, and whether a
decode of the body was attempted. -/
structure CallTrace where
  requestSent : Bool
  bodyClosed : Bool
  decodeAttempted : Bool
deriving Repr, DecidableEq

/-- publishInternal from push_client.go.  The transport call is modelled by
the send argument.  Control flow mirrors the source: validation, POST,
checkStatus, then the deferred body close is registered (so every later exit
closes the body, while the two earlier error returns after the POST do not),
decode, envelope errors check (Errors != nil), missing data check
(Data == nil), length check, pairing. -/
def publishInternal (messages : List Msg) (send : SendOutcome) :
    Except PubError (List PushResponse) × CallTrace :=
  match validateMessages messages with
  | some e => (.error (.goError e), ⟨false, false, false⟩)
  | none =>
    match send with
    | .fail e => (.error (.goError e), ⟨true, false, false⟩)
    | .ok resp =>
      match checkStatus resp with
      | some e => (.error (.goError e), ⟨true, false, false⟩)
      | none =>
        match resp.body with
        | .malformed e => (.error (.goError e), ⟨true, true, true⟩)
        | .envelope r =>
          match r.Errors with
          | some errs =>
              (.error (NewPushServerError "Invalid server response" resp r
                (some errs)), ⟨true, true, true⟩)
          | none =>
            match r.Data with
            | none =>
                (.error (NewPushServerError "Invalid server response" resp r
                  none), ⟨true, true, true⟩)
            | some data =>
              if messages.length ≠ data.length then
                (.error (NewPushServerError
                  (mismatchMessage messages.length data.length) resp r none),
                  ⟨true, true, true⟩)
              else
                (.ok (pairWithMessages data messages), ⟨true, true, true⟩)

/-- PublishMultiple from push_client.go: delegates to publishInternal. -/
def PublishMultiple (messages : List Msg) (send : SendOutcome) :
    Except PubError (List PushResponse) × CallTrace :=
  publishInternal messages send

/-- Publish from push_client.go: calls PublishMultiple on the one-element
list, propagates its error (returning the zero-value response alongside it in
Go), and returns element 0 of the responses on success. -/
def Publish (message : Msg) (send : SendOutcome) :
    Except PubError PushResponse × CallTrace :=
  match PublishMultiple [message] send with
  | (.error err, t) => (.error err, t)
  | (.ok responses, t) => (.ok (responses.getD 0 default), t)

/-- Concrete fixture: a message with one valid recipient token. -/
def msgA : Msg := { To := ["ExponentPushToken[AAA]"] }

/-- Concrete fixture: a second message with one valid recipient token. -/
def msgB : Msg := { To := ["ExponentPushToken[BBB]"] }

/-- Concrete fixture: one per-item result as decoded from the wire, its
PushMessage back-reference still the zero value. -/
def okItem : PushResponse := { Status := "ok", ID := "r1" }

/-- Concrete fixture: an envelope with one data item and no errors field. -/
def env1 : Response := { Errors := none, Data := some [okItem] }

/-- Concrete fixture: a 200 OK response around a given envelope. -/
def resp200 (r : Response) : HTTPResponse := ⟨200, "OK", .envelope r⟩

/-- Concrete fixture: the item of env1 after pairing with msgA. -/
def pairedA : PushResponse := { okItem with PushMessage := msgA }

/-- Concrete fixture: an envelope whose errors field is present and
non-empty. -/
def envErr : Response :=
  { Errors := some [{ Code := "PUSH_TOO_MANY", Message := "bad" }],
    Data := none }

/-- Concrete fixture: a 500 response; its body would decode fine, so any
failure to parse or close it is due to control flow alone. -/
def resp500 : HTTPResponse :=
  ⟨500, "Internal Server Error", .envelope { Data := some [] }⟩

/-- Concrete fixture: an envelope carrying one data item, used against a
two-message batch. -/
def env21 : Response := { Errors := none, Data := some [okItem] }

/-- Validation of one recipient list succeeds exactly when no token is the
empty string, and its only failure value is the invalid-push-token error. -/
lemma validateRecipients_eq (rs : List String) :
    validateRecipients rs =
      if "" ∈ rs then some "invalid push token" else none := by
  induction rs with
  | nil => rfl
  | cons r rest ih =>
      by_cases h : r = ""
      · simp [validateRecipients, h]
      · simp [validateRecipients, h, ih, List.mem_cons, Ne.symm h]

/-- The validation loop returns the error of the first offending message in
input order: no-recipients for a message with an empty To list, otherwise
invalid-push-token for a message containing an empty token. -/
lemma validateMessages_eq (messages : List Msg) :
    validateMessages messages =
      (messages.find? (fun m => m.To.isEmpty || decide ("" ∈ m.To))).map
        (fun m => if m.To.isEmpty then "no recipients"
          else "invalid push token") := by
  induction messages with
  | nil => rfl
  | cons m rest ih =>
      match hTo : m.To with
      | [] =>
          simp [validateMessages, List.find?_cons, hTo]
      | r :: rs =>
          by_cases hc : "" ∈ m.To
          · simp [validateMessages, List.find?_cons, hTo, hc,
              validateRecipients_eq, hTo ▸ hc]
          · simp [validateMessages, List.find?_cons, hTo,
              validateRecipients_eq, hTo ▸ hc, ih]

/-- Shape of every successful publishInternal run: the transport returned a
response, its status passed the check, its body decoded to an envelope with
no errors field and a present data list of the input length, and the result
is the positional pairing of that data with the input messages, with all
three effects (request, close, decode) recorded. -/
lemma publish_ok_shape (messages : List Msg) (send : SendOutcome)
    (results : List PushResponse) (t : CallTrace)
    (h : PublishMultiple messages send = (.ok results, t)) :
    ∃ resp r data, send = .ok resp ∧ resp.body = .envelope r ∧
      r.Errors = none ∧ r.Data = some data ∧
      messages.length = data.length ∧
      results = pairWithMessages data messages ∧
      t = ⟨true, true, true⟩ ∧
      validateMessages messages = none ∧ checkStatus resp = none := by
  cases hv : validateMessages messages with
  | some e => simp [PublishMultiple, publishInternal, hv] at h
  | none =>
  cases send with
  | fail e => simp [PublishMultiple, publishInternal, hv] at h
  | ok resp =>
  cases hc : checkStatus resp with
  | some e => simp [PublishMultiple, publishInternal, hv, hc] at h
  | none =>
  cases hb : resp.body with
  | malformed e => simp [PublishMultiple, publishInternal, hv, hc, hb] at h
  | envelope r =>
  cases hE : r.Errors with
  | some errs => simp [PublishMultiple, publishInternal, hv, hc, hb, hE] at h
  | none =>
  cases hD : r.Data with
  | none => simp [PublishMultiple, publishInternal, hv, hc, hb, hE, hD] at h
  | some data =>
  by_cases hl : messages.length = data.length
  · simp [PublishMultiple, publishInternal, hv, hc, hb, hE, hD, hl] at h
    exact ⟨resp, r, data, rfl, hb, hE, hD, hl, h.1.symm, h.2.symm, rfl, hc⟩
  · simp [PublishMultiple, publishInternal, hv, hc, hb, hE, hD, hl] at h

/-- The mismatch error message is never the invalid-server-response message:
its fixed parts are already longer than that string. -/
lemma mismatchMessage_ne_invalid (n m : Nat) :
    mismatchMessage n m ≠ "Invalid server response" := by
  intro h
  have hlen := congrArg String.length h
  have h1 : ("Mismatched response length. Expected " : String).length = 37 := by
    decide
  have h2 : (" receipts but only received " : String).length = 28 := by decide
  have h3 : ("Invalid server response" : String).length = 23 := by decide
  simp [mismatchMessage, String.length_append, h1, h2, h3] at hlen
  omega

/-- Claim C1: on every successful PublishMultiple run over a non-empty list
of messages with valid recipients, the result list has exactly the input
length, and position i of the result is the decoded data item at position i
with its PushMessage back-reference set to input message i — strict
positional pairing, no reordering, no content-based matching. -/
theorem claim_C1_positional_pairing (messages : List Msg) (send : SendOutcome)
    (results : List PushResponse) (t : CallTrace)
    (hne : messages ≠ [])
    (hvalid : ∀ m ∈ messages, m.To ≠ [] ∧ ¬("" ∈ m.To))
    (hok : PublishMultiple messages send = (.ok results, t)) :
    results.length = messages.length ∧
    ∃ resp r data, send = .ok resp ∧ resp.body = .envelope r ∧
      r.Data = some data ∧ data.length = messages.length ∧
      ∀ (i : Nat) (hi : i < results.length) (hm : i < messages.length)
        (hd : i < data.length),
        results[i].PushMessage = messages[i] ∧
        results[i] = { data[i] with PushMessage := messages[i] } := by
  obtain ⟨resp, r, data, hsend, hb, hE, hD, hlen, hres, ht, hv, hc⟩ :=
    publish_ok_shape messages send results t hok
  subst hres
  have hlen' : (pairWithMessages data messages).length = messages.length := by
    simp [pairWithMessages, List.length_zipWith, ← hlen, Nat.min_self]
  refine ⟨hlen', resp, r, data, hsend, hb, hD, hlen.symm, ?_⟩
  intro i hi hm hd
  constructor
  · simp [pairWithMessages, List.getElem_zipWith]
  · simp [pairWithMessages, List.getElem_zipWith]

/-- Witness for claim C1 at a concrete one-message batch and a 200 response
with a one-item envelope. -/
theorem claim_C1_witness :
    ([pairedA] : List PushResponse).length = [msgA].length ∧
    ∃ resp r data, SendOutcome.ok (resp200 env1) = .ok resp ∧
      resp.body = .envelope r ∧ r.Data = some data ∧
      data.length = [msgA].length ∧
      ∀ (i : Nat) (hi : i < ([pairedA] : List PushResponse).length)
        (hm : i < [msgA].length) (hd : i < data.length),
        ([pairedA] : List PushResponse)[i].PushMessage = [msgA][i] ∧
        ([pairedA] : List PushResponse)[i]
          = { data[i] with PushMessage := [msgA][i] } :=
  claim_C1_positional_pairing [msgA] (.ok (resp200 env1)) [pairedA]
    ⟨true, true, true⟩ (by simp) (by decide) rfl

/-- Claim C2 counterexample: a received 500 response makes the call exit with
an error while the response body is never closed — the deferred close is
registered only after the status check, so the claim that the body is
released on every exit path of a call that received a response fails. -/
theorem claim_C2_counterexample :
    (PublishMultiple [msgA]
      (.ok ⟨500, "Internal Server Error", .envelope {}⟩)).snd.bodyClosed
        = false ∧
    (PublishMultiple [msgA]
      (.ok ⟨500, "Internal Server Error", .envelope {}⟩)).fst
        = .error (.goError "invalid response (500 Internal Server Error)") :=
  ⟨rfl, rfl⟩

/-- Claim C2 (amended): for a call that received a response, the body is
closed before return on every exit path on which the HTTP status check
passed (decode failure, envelope errors, missing data, length mismatch,
success); on the non-2xx status error path the body is not closed. -/
theorem claim_C2_body_close (messages : List Msg) (resp : HTTPResponse)
    (hv : validateMessages messages = none) :
    ((resp.statusCode ≥ 200 ∧ resp.statusCode ≤ 299) →
      (PublishMultiple messages (.ok resp)).snd.bodyClosed = true) ∧
    (¬(resp.statusCode ≥ 200 ∧ resp.statusCode ≤ 299) →
      (PublishMultiple messages (.ok resp)).snd.bodyClosed = false) := by
  constructor
  · intro hin
    have hc : checkStatus resp = none := by simp [checkStatus, hin]
    cases hbody : resp.body with
    | malformed e => simp [PublishMultiple, publishInternal, hv, hc, hbody]
    | envelope r =>
      cases hE : r.Errors with
      | some errs => simp [PublishMultiple, publishInternal, hv, hc, hbody, hE]
      | none =>
        cases hD : r.Data with
        | none => simp [PublishMultiple, publishInternal, hv, hc, hbody, hE, hD]
        | some data =>
          by_cases hl : messages.length = data.length <;>
            simp [PublishMultiple, publishInternal, hv, hc, hbody, hE, hD, hl]
  · intro hout
    simp [PublishMultiple, publishInternal, hv, checkStatus, hout]

/-- Witness for the amended claim C2: on a concrete 200 response the body is
closed. -/
theorem claim_C2_witness :
    (PublishMultiple [msgA] (.ok (resp200 env1))).snd.bodyClosed = true :=
  (claim_C2_body_close [msgA] (resp200 env1) rfl).1 (by decide)

/-- Claim C3, evaluated at the failing input: constructing a client with a
nil config yields the default host, the default API path and an empty
credential, but the httpClient field is the nil interface — no default
transport is constructed at construction time, contradicting the claim. -/
theorem claim_C3_nil_config :
    NewPushClient none =
      { host := DefaultHost, apiURL := DefaultBaseAPIURL, accessToken := "",
        httpClient := none } := rfl

/-- Claim C4 counterexample: with a present-but-empty errors field and a
present data field, the call still fails with the invalid-server-response
PushServerError, because the code checks the errors slice against nil and a
present empty JSON array decodes to a non-nil empty slice — the claim says
this envelope does not trigger the failure. -/
theorem claim_C4_counterexample :
    (PublishMultiple [msgA]
      (.ok (resp200 { Errors := some [], Data := some [okItem] }))).fst
      = .error (.serverError "Invalid server response"
          (resp200 { Errors := some [], Data := some [okItem] })
          { Errors := some [], Data := some [okItem] } (some [])) := rfl

/-- Claim C4 (amended): after a 2xx response decoding into an envelope, the
call fails with the invalid-server-response PushServerError exactly when the
errors field is present (decoded non-nil, even if empty — carrying those
errors) or the data field is absent (carrying nil errors); when the errors
field is absent and data is present no such failure occurs. -/
theorem claim_C4_invalid_server_response (messages : List Msg)
    (resp : HTTPResponse) (r : Response)
    (hv : validateMessages messages = none)
    (hc : checkStatus resp = none)
    (hb : resp.body = .envelope r) :
    (r.Errors.isSome →
      (PublishMultiple messages (.ok resp)).fst =
        .error (.serverError "Invalid server response" resp r r.Errors)) ∧
    (r.Errors = none → r.Data = none →
      (PublishMultiple messages (.ok resp)).fst =
        .error (.serverError "Invalid server response" resp r none)) ∧
    (r.Errors = none → ∀ data, r.Data = some data →
      ∀ errs, (PublishMultiple messages (.ok resp)).fst ≠
        .error (.serverError "Invalid server response" resp r errs)) := by
  refine ⟨?_, ?_, ?_⟩
  · intro hso
    obtain ⟨errs, hE⟩ := Option.isSome_iff_exists.mp hso
    simp [PublishMultiple, publishInternal, hv, hc, hb, hE, NewPushServerError]
  · intro hE hD
    simp [PublishMultiple, publishInternal, hv, hc, hb, hE, hD,
      NewPushServerError]
  · intro hE data hD errs
    by_cases hl : messages.length = data.length
    · simp [PublishMultiple, publishInternal, hv, hc, hb, hE, hD, hl,
        NewPushServerError]
    · simp [PublishMultiple, publishInternal, hv, hc, hb, hE, hD, hl,
        NewPushServerError]
      intro hcontra
      exact absurd hcontra (mismatchMessage_ne_invalid _ _)

/-- Witness for the amended claim C4: a concrete envelope with a non-empty
errors field fails with the invalid-server-response error carrying it. -/
theorem claim_C4_witness :
    (PublishMultiple [msgA] (.ok (resp200 envErr))).fst =
      .error (.serverError "Invalid server response" (resp200 envErr) envErr
        envErr.Errors) :=
  (claim_C4_invalid_server_response [msgA] (resp200 envErr) envErr
    rfl rfl rfl).1 rfl

/-- Claim C5: validation returns the error determined by the first offending
message in input order — no-recipients when its To list is empty, otherwise
invalid-push-token for its empty token — and any validation error aborts the
whole batch with that error and no effects. -/
theorem claim_C5_validation (messages : List Msg) (send : SendOutcome) :
    validateMessages messages =
      (messages.find? (fun m => m.To.isEmpty || decide ("" ∈ m.To))).map
        (fun m => if m.To.isEmpty then "no recipients"
          else "invalid push token") ∧
    (∀ e, validateMessages messages = some e →
      PublishMultiple messages send =
        (.error (.goError e), ⟨false, false, false⟩)) := by
  refine ⟨validateMessages_eq messages, ?_⟩
  intro e he
  simp [PublishMultiple, publishInternal, he]

/-- Witness for claim C5: in a batch whose first offending message has zero
recipients (a later one has an empty token), the call fails with the
no-recipients error and no request is sent. -/
theorem claim_C5_witness :
    PublishMultiple [msgA, { To := [] }, { To := [""] }] (.fail "down") =
      (.error (.goError "no recipients"), ⟨false, false, false⟩) :=
  (claim_C5_validation [msgA, { To := [] }, { To := [""] }] (.fail "down")).2
    "no recipients" rfl

/-- Claim C6: a batch containing an invalid message (zero recipients or an
empty token) fails with one of the two validation errors and a trace showing
the transport was never invoked. -/
theorem claim_C6_no_request_on_invalid (messages : List Msg)
    (send : SendOutcome)
    (h : ∃ m ∈ messages, m.To = [] ∨ "" ∈ m.To) :
    ∃ e, PublishMultiple messages send =
        (.error (.goError e), ⟨false, false, false⟩) ∧
      (e = "no recipients" ∨ e = "invalid push token") := by
  have hfind : (messages.find?
      (fun m => m.To.isEmpty || decide ("" ∈ m.To))).isSome := by
    rw [List.find?_isSome]
    obtain ⟨m, hm, hcase⟩ := h
    refine ⟨m, hm, ?_⟩
    cases hcase with
    | inl h1 => simp [h1]
    | inr h2 => simp [h2]
  obtain ⟨m, hm⟩ := Option.isSome_iff_exists.mp hfind
  have hv : validateMessages messages =
      some (if m.To.isEmpty then "no recipients"
        else "invalid push token") := by
    rw [validateMessages_eq, hm]
    rfl
  refine ⟨if m.To.isEmpty then "no recipients" else "invalid push token",
    ?_, ?_⟩
  · simp [PublishMultiple, publishInternal, hv]
  · by_cases hie : m.To.isEmpty <;> simp [hie]

/-- Witness for claim C6 at a concrete batch with an empty token. -/
theorem claim_C6_witness :
    ∃ e, PublishMultiple [{ To := [""] }] (.fail "down") =
        (.error (.goError e), ⟨false, false, false⟩) ∧
      (e = "no recipients" ∨ e = "invalid push token") :=
  claim_C6_no_request_on_invalid [{ To := [""] }] (.fail "down")
    ⟨{ To := [""] }, by simp, Or.inr (by simp)⟩

/-- Claim C7: a response with a status code outside 200..299 makes the call
fail with the formatted status error carrying the code and status text, with
a trace showing the body was never decoded and never closed; every status in
200..299 passes the check. -/
theorem claim_C7_status_check (messages : List Msg) (resp : HTTPResponse)
    (hv : validateMessages messages = none) :
    (¬(resp.statusCode ≥ 200 ∧ resp.statusCode ≤ 299) →
      PublishMultiple messages (.ok resp) =
        (.error (.goError ("invalid response (" ++ toString resp.statusCode
          ++ " " ++ resp.status ++ ")")), ⟨true, false, false⟩)) ∧
    ((resp.statusCode ≥ 200 ∧ resp.statusCode ≤ 299) →
      checkStatus resp = none) := by
  constructor
  · intro hout
    simp [PublishMultiple, publishInternal, hv, checkStatus, hout]
  · intro hin
    simp [checkStatus, hin]

/-- Witness for claim C7 at a concrete 500 response. -/
theorem claim_C7_witness :
    PublishMultiple [msgA] (.ok resp500) =
      (.error (.goError ("invalid response (" ++ toString resp500.statusCode
        ++ " " ++ resp500.status ++ ")")), ⟨true, false, false⟩) :=
  (claim_C7_status_check [msgA] resp500 rfl).1 (by decide)

/-- Claim C8: an envelope whose data list length differs from the input
length fails with a PushServerError whose message is exactly the mismatch
sentence built from the input count and the received count. -/
theorem claim_C8_length_mismatch (messages : List Msg) (resp : HTTPResponse)
    (r : Response) (data : List PushResponse)
    (hv : validateMessages messages = none)
    (hc : checkStatus resp = none)
    (hb : resp.body = .envelope r)
    (hE : r.Errors = none)
    (hD : r.Data = some data)
    (hl : messages.length ≠ data.length) :
    PublishMultiple messages (.ok resp) =
      (.error (.serverError
        ("Mismatched response length. Expected " ++ toString messages.length
          ++ " receipts but only received " ++ toString data.length)
        resp r none), ⟨true, true, true⟩) := by
  simp [PublishMultiple, publishInternal, hv, hc, hb, hE, hD, hl,
    NewPushServerError, mismatchMessage]

/-- Witness for claim C8: two input messages against a one-item envelope
yield exactly the expected-2-received-1 message. -/
theorem claim_C8_witness :
    PublishMultiple [msgA, msgB] (.ok (resp200 env21)) =
      (.error (.serverError
        "Mismatched response length. Expected 2 receipts but only received 1"
        (resp200 env21) env21 none), ⟨true, true, true⟩) :=
  claim_C8_length_mismatch [msgA, msgB] (resp200 env21) env21 [okItem]
    rfl rfl rfl rfl rfl (by decide)

/-- Claim C9: single send on message M is batch send on the one-element list
— it propagates the identical error with the identical trace, and on success
the batch result is a one-element list whose only element single send
returns. -/
theorem claim_C9_single_send_equiv (message : Msg) (send : SendOutcome) :
    (∀ e t, PublishMultiple [message] send = (.error e, t) →
      Publish message send = (.error e, t)) ∧
    (∀ rs t, PublishMultiple [message] send = (.ok rs, t) →
      ∃ r0, rs = [r0] ∧ Publish message send = (.ok r0, t)) := by
  constructor
  · intro e t h
    simp [Publish, h]
  · intro rs t h
    obtain ⟨resp, r, data, hsend, hb, hE, hD, hlen, hres, ht, hv, hc⟩ :=
      publish_ok_shape [message] send rs t h
    cases data with
    | nil => simp at hlen
    | cons d ds =>
      cases ds with
      | nil =>
          subst hres
          refine ⟨{ d with PushMessage := message }, rfl, ?_⟩
          simp [Publish, h, pairWithMessages]
      | cons d2 ds2 => simp at hlen

/-- Witness for claim C9 on a concrete successful one-message call. -/
theorem claim_C9_witness :
    ∃ r0, [pairedA] = [r0] ∧
      Publish msgA (.ok (resp200 env1)) = (.ok r0, ⟨true, true, true⟩) :=
  (claim_C9_single_send_equiv msgA (.ok (resp200 env1))).2 [pairedA]
    ⟨true, true, true⟩ rfl

/-- Claim C10: the empty batch passes validation vacuously, the request is
issued (requestSent in the trace), and a 2xx response whose envelope has a
present empty data list makes the call succeed with the empty result
list. -/
theorem claim_C10_empty_batch (resp : HTTPResponse)
    (h2 : resp.statusCode ≥ 200 ∧ resp.statusCode ≤ 299)
    (hb : resp.body = .envelope { Errors := none, Data := some [] }) :
    validateMessages [] = none ∧
    PublishMultiple [] (.ok resp) = (.ok [], ⟨true, true, true⟩) := by
  have hc : checkStatus resp = none := by simp [checkStatus, h2]
  refine ⟨rfl, ?_⟩
  simp [PublishMultiple, publishInternal, validateMessages, hc, hb,
    pairWithMessages]

/-- Witness for claim C10 at a concrete 200 response with an empty data
list. -/
theorem claim_C10_witness :
    validateMessages [] = none ∧
    PublishMultiple []
      (.ok (resp200 { Errors := none, Data := some [] })) =
        (.ok [], ⟨true, true, true⟩) :=
  claim_C10_empty_batch (resp200 { Errors := none, Data := some [] })
    (by decide) rfl

end Expo
